import Mathlib

/-!
Verification of the brahma job-scheduler library (Rust sources:
`src/time.rs`, `src/types.rs`, `src/builder.rs`).

The Rust code is shallowly embedded: `u8`/`u16` values become `Nat`
(none of the embedded operations perform arithmetic, so no overflow can
occur and the embedding is exact on the byte range), Rust `Option` becomes
Lean `Option`, and each chained setter taking `self` by value becomes a
pure function `Schedule → ... → Schedule`.  Because the Rust struct fields
and methods share names (`day` the field vs `day(d)` the method), the
methods are embedded under `set...` names (`Schedule.setDay` embeds
`Schedule::day`, etc.); field names follow the source exactly.
-/

namespace Brahma

/-- Embeds `is_valid_day_for_month` from `src/time.rs`.  The Rust `match`
on the month number (arms `1|3|5|7|8|10|12`, `4|6|9|11`, `2`, catch-all
`false`) is rendered as the equivalent condition chain. -/
def is_valid_day_for_month (month day : Nat) : Bool :=
  if month = 1 ∨ month = 3 ∨ month = 5 ∨ month = 7 ∨ month = 8 ∨
     month = 10 ∨ month = 12 then
    decide (day ≤ 31)
  else if month = 4 ∨ month = 6 ∨ month = 9 ∨ month = 11 then
    decide (day ≤ 30)
  else if month = 2 then
    decide (day ≤ 29)
  else
    false

/-- Embeds `enum Frequency` from `src/types.rs`. -/
inductive Frequency where
  | Hourly
  | Daily
  | Weekly
  | Monthly
deriving DecidableEq, Repr

/-- Embeds `enum Days` from `src/types.rs`. -/
inductive Days where
  | SUN
  | MON
  | TUE
  | WED
  | THUR
  | FRI
  | SAT
deriving DecidableEq, Repr

/-- Embeds `enum Month` from `src/types.rs` (twelve fieldless variants,
so the Rust discriminants are 0 for `JAN` through 11 for `DEC`). -/
inductive Month where
  | JAN
  | FEB
  | MAR
  | APR
  | MAY
  | JUN
  | JULY
  | AUG
  | SEPT
  | OCT
  | NOV
  | DEC
deriving DecidableEq, Repr

/-- The value of the Rust cast `m as u8` on `Month`: the zero-based
declaration-order discriminant. -/
def Month.toU8 : Month → Nat
  | .JAN => 0
  | .FEB => 1
  | .MAR => 2
  | .APR => 3
  | .MAY => 4
  | .JUN => 5
  | .JULY => 6
  | .AUG => 7
  | .SEPT => 8
  | .OCT => 9
  | .NOV => 10
  | .DEC => 11

/-- Embeds `enum FrequencyPattern` from `src/types.rs`. -/
inductive FrequencyPattern where
  | Frequency (f : Frequency)
  | ByDay (p : Option Nat × Days)
deriving DecidableEq, Repr

/-- Embeds `enum Except` from `src/types.rs`. -/
inductive Except where
  | Day (d : Days)
  | N (n : Nat)
  | NDay (p : Nat × Days)
  | MONTH (m : Month)
deriving DecidableEq, Repr

/-- Embeds `struct Time` from `src/types.rs`. -/
structure Time where
  hour : Nat
  minute : Nat
deriving DecidableEq, Repr

/-- Embeds `struct Recurring` from `src/types.rs`. -/
structure Recurring where
  frequency : Option FrequencyPattern
  except : Option Except
deriving DecidableEq, Repr

/-- Embeds `struct Until` from `src/types.rs`. -/
structure Until where
  total : Nat
  day : Option Nat
  month : Option Month
  hr : Option Nat
  minute : Option Nat
deriving DecidableEq, Repr

/-- Embeds `struct Schedule` from `src/types.rs`. -/
structure Schedule where
  recurring : Recurring
  year : Option Nat
  day : Option Nat
  month : Option Month
  hour : Option Nat
  minute : Option Nat
  repeat' : Option Until
  range : Option (Time × Time)
deriving DecidableEq, Repr

/-- Embeds `Schedule::new`. -/
def Schedule.new : Schedule :=
  { recurring := { frequency := none, except := none }
    year := none
    day := none
    month := none
    hour := none
    minute := none
    repeat' := none
    range := none }

/-- Embeds `Schedule::year` (diagnostic printing is a no-op in the
embedding). -/
def Schedule.setYear (s : Schedule) (year : Nat) : Schedule :=
  if s.year.isNone then { s with year := some year } else s

/-- Embeds `Schedule::day`: range check `1 ≤ d ≤ 31`, then the
cross-check against an already-set month via
`is_valid_day_for_month(m as u8, d)` (early return on failure), then
first-write-wins. -/
def Schedule.setDay (s : Schedule) (d : Nat) : Schedule :=
  if 1 ≤ d ∧ d ≤ 31 then
    match s.month with
    | some m =>
        if is_valid_day_for_month m.toU8 d then
          if s.day.isNone then { s with day := some d } else s
        else
          s
    | none =>
        if s.day.isNone then { s with day := some d } else s
  else
    s

/-- Embeds `Schedule::month`: cross-check against an already-set day via
`is_valid_day_for_month(m as u8, d)` (early return on failure), then
first-write-wins. -/
def Schedule.setMonth (s : Schedule) (m : Month) : Schedule :=
  match s.day with
  | some d =>
      if is_valid_day_for_month m.toU8 d then
        if s.month.isNone then { s with month := some m } else s
      else
        s
  | none =>
      if s.month.isNone then { s with month := some m } else s

/-- Embeds `Schedule::hour`: early return when already set, then the
range check `h < 24`. -/
def Schedule.setHour (s : Schedule) (h : Nat) : Schedule :=
  if s.hour.isSome then s
  else if h < 24 then { s with hour := some h } else s

/-- Embeds `Schedule::minute`: early return when already set, then the
range check `m < 60`. -/
def Schedule.setMinute (s : Schedule) (m : Nat) : Schedule :=
  if s.minute.isSome then s
  else if m < 60 then { s with minute := some m } else s

/-- Embeds `Schedule::every`. -/
def Schedule.setEvery (s : Schedule) (f : FrequencyPattern) : Schedule :=
  if s.recurring.frequency.isNone then
    { s with recurring := { s.recurring with frequency := some f } }
  else s

/-- Embeds `Schedule::except`. -/
def Schedule.setExcept (s : Schedule) (e : Except) : Schedule :=
  if s.recurring.except.isNone then
    { s with recurring := { s.recurring with except := some e } }
  else s

/-- Embeds `Schedule::repeat`. -/
def Schedule.setRepeat (s : Schedule) (n : Nat) : Schedule :=
  if s.repeat'.isNone then
    { s with
      repeat' := some { total := n, day := none, month := none, hr := none, minute := none } }
  else s

/-- Embeds `Schedule::until`: a no-op when `repeat` is unset, otherwise
replaces the `Until` record keeping the stored `total` (the Rust
`self.repeat.unwrap().total` read, here obtained by the match). -/
def Schedule.setUntil (s : Schedule) (d : Option Nat) (m : Option Month)
    (h : Option Nat) (min : Option Nat) : Schedule :=
  match s.repeat' with
  | none => s
  | some u =>
      { s with repeat' := some { total := u.total, day := d, month := m, hr := h, minute := min } }

/-- Shadow of `Schedule::until` in which the Rust `unwrap` on
`self.repeat` is modelled as a fallible `Option.bind`: the result is
`none` exactly when that `unwrap` would panic. -/
def Schedule.setUntilChecked (s : Schedule) (d : Option Nat) (m : Option Month)
    (h : Option Nat) (min : Option Nat) : Option Schedule :=
  if s.repeat'.isNone then some s
  else
    s.repeat'.bind fun u =>
      some { s with repeat' := some { total := u.total, day := d, month := m, hr := h, minute := min } }

/-- Embeds `Schedule::between`: stores the two `(u8, u8)` pairs verbatim
as a `(Time, Time)` range, first-write-wins. -/
def Schedule.setBetween (s : Schedule) (start finish : Nat × Nat) : Schedule :=
  if s.range.isNone then
    { s with
      range := some ({ hour := start.1, minute := start.2 },
                     { hour := finish.1, minute := finish.2 }) }
  else s

/-! ## Type-state builder (`src/builder.rs`)

The Rust `ScheduleBuilder<DaySet, MonthSet, HourSet, MinuteSet>` carries
its four phantom marker parameters (`Yes`/`No`) in the type; the
embedding splits it into the data record `ScheduleBuilder` (the four
stored optionals) and the marker tuple `Flags` (one `Bool` per phantom
parameter, `true` embedding `Yes`).  Each `impl` block's method becomes a
constructor of the labelled transition relation `BStep`, whose admitted
source flags transcribe exactly that `impl` block's type parameters;
`BReach` closes the transitions under the `new()` entry point. -/

/-- Data part of `ScheduleBuilder` from `src/builder.rs` (field order as
in the source). -/
structure ScheduleBuilder where
  month : Option Month
  day : Option Nat
  hour : Option Nat
  minute : Option Nat
deriving DecidableEq, Repr

/-- The four phantom markers of `ScheduleBuilder<DaySet, MonthSet,
HourSet, MinuteSet>`; `true` embeds the `Yes` marker. -/
structure Flags where
  daySet : Bool
  monthSet : Bool
  hourSet : Bool
  minuteSet : Bool
deriving DecidableEq, Repr

/-- Embeds `ScheduleBuilder::new` (the `impl ScheduleBuilder<No,No,No,No>`
constructor). -/
def ScheduleBuilder.new : ScheduleBuilder :=
  { month := none, day := none, hour := none, minute := none }

/-- Data effect of `ScheduleBuilder::day`. -/
def ScheduleBuilder.setDay (b : ScheduleBuilder) (day : Nat) : ScheduleBuilder :=
  { b with day := some day }

/-- Data effect of `ScheduleBuilder::hour`. -/
def ScheduleBuilder.setHour (b : ScheduleBuilder) (hour : Nat) : ScheduleBuilder :=
  { b with hour := some hour }

/-- Data effect of `ScheduleBuilder::minute`. -/
def ScheduleBuilder.setMinute (b : ScheduleBuilder) (minute : Nat) : ScheduleBuilder :=
  { b with minute := some minute }

/-- Data effect of `ScheduleBuilder::month`. -/
def ScheduleBuilder.setMonth (b : ScheduleBuilder) (month : Month) : ScheduleBuilder :=
  { b with month := some month }

/-- Labels for the builder's four configuration methods. -/
inductive BMethod where
  | day (d : Nat)
  | month (m : Month)
  | hour (h : Nat)
  | minute (mi : Nat)
deriving DecidableEq, Repr

/-- One builder method call: `BStep mth ts b ts' b'` holds when, on a
builder whose phantom markers are `ts` and whose data is `b`, the method
`mth` is available (its `impl` block's type parameters match `ts`) and
produces markers `ts'` and data `b'`.  Each constructor transcribes one
`impl` block of `src/builder.rs`; a Rust type variable (`MonthSet`,
`HourSet`) becomes a universally quantified `Bool`. -/
inductive BStep : BMethod → Flags → ScheduleBuilder → Flags → ScheduleBuilder → Prop where
  | day (d : Nat) (b : ScheduleBuilder) :
      BStep (.day d) ⟨false, false, false, false⟩ b
        ⟨true, false, false, false⟩ (b.setDay d)
  | hour (ms : Bool) (h : Nat) (b : ScheduleBuilder) :
      BStep (.hour h) ⟨true, ms, false, false⟩ b
        ⟨true, ms, true, false⟩ (b.setHour h)
  | minute (ms : Bool) (mi : Nat) (b : ScheduleBuilder) :
      BStep (.minute mi) ⟨true, ms, true, false⟩ b
        ⟨true, ms, true, true⟩ (b.setMinute mi)
  | month (hs : Bool) (m : Month) (b : ScheduleBuilder) :
      BStep (.month m) ⟨true, false, hs, false⟩ b
        ⟨true, true, hs, false⟩ (b.setMonth m)

/-- Builder states reachable from `ScheduleBuilder::new()` by chained
method calls. -/
inductive BReach : Flags → ScheduleBuilder → Prop where
  | new : BReach ⟨false, false, false, false⟩ ScheduleBuilder.new
  | step {ts b ts' b'} (mth : BMethod) :
      BReach ts b → BStep mth ts b ts' b' → BReach ts' b'

/-- Embeds `build` of `impl ScheduleBuilder<Yes,No,No,No>`:
`Schedule::new().day(self.day.unwrap())`, with the `unwrap` modelled as a
fallible `Option.bind` (`none` exactly when the `unwrap` would panic). -/
def ScheduleBuilder.buildDayOnly (b : ScheduleBuilder) : Option Schedule :=
  b.day.bind fun d => some (Schedule.new.setDay d)

/-- Embeds `build` of `impl ScheduleBuilder<Yes,Yes,No,No>`:
`Schedule::new().day(self.day.unwrap()).month(self.month.unwrap())`,
unwraps modelled as fallible binds. -/
def ScheduleBuilder.buildDayMonth (b : ScheduleBuilder) : Option Schedule :=
  b.day.bind fun d => b.month.bind fun m =>
    some ((Schedule.new.setDay d).setMonth m)

/-- Embeds `build` of `impl<MonthSet> ScheduleBuilder<Yes,MonthSet,Yes,Yes>`:
`Schedule::new().day(..).hour(..).minute(..)` on the three unwrapped
values, then `.month(y)` under the `if let Some(y) = self.month`;
unwraps modelled as fallible binds. -/
def ScheduleBuilder.buildFull (b : ScheduleBuilder) : Option Schedule :=
  b.day.bind fun d => b.hour.bind fun h => b.minute.bind fun mi =>
    let s := ((Schedule.new.setDay d).setHour h).setMinute mi
    some (match b.month with
          | some y => s.setMonth y
          | none => s)

/-- Month lengths as the specification states them: months
`1,3,5,7,8,10,12` have 31 days, months `4,6,9,11` have 30,
February (month 2) is treated as always having 29; other numbers are not
months (length 0, unreachable in the characterisation below). -/
def monthLengthSpec (m : Nat) : Nat :=
  if m = 1 ∨ m = 3 ∨ m = 5 ∨ m = 7 ∨ m = 8 ∨ m = 10 ∨ m = 12 then 31
  else if m = 4 ∨ m = 6 ∨ m = 9 ∨ m = 11 then 30
  else if m = 2 then 29
  else 0

/-! ## Helper lemmas -/

/-- On every reachable builder state, each phantom `Yes` marker is backed
by an actually stored value, so the `unwrap`s in `build` cannot fail. -/
theorem breach_stored_values {ts : Flags} {b : ScheduleBuilder}
    (h : BReach ts b) :
    (ts.daySet = true → b.day.isSome) ∧
    (ts.monthSet = true → b.month.isSome) ∧
    (ts.hourSet = true → b.hour.isSome) ∧
    (ts.minuteSet = true → b.minute.isSome) := by
  induction h with
  | new => simp [ScheduleBuilder.new]
  | step mth hr hs ih =>
      obtain ⟨ihd, ihm, ihh, ihmi⟩ := ih
      cases hs <;>
        refine ⟨?_, ?_, ?_, ?_⟩ <;>
        simp_all [ScheduleBuilder.setDay, ScheduleBuilder.setHour,
          ScheduleBuilder.setMinute, ScheduleBuilder.setMonth]

/-! ## Claim theorems -/

/-- C7: `is_valid_day_for_month month day` returns `true` exactly when
`month` is a 1-based month number in 1–12 and `day` does not exceed that
month's length, with months 1,3,5,7,8,10,12 having 31 days, months
4,6,9,11 having 30 days, and February (month 2) treated as always having
29 days; every month argument outside 1–12 returns `false`. -/
theorem is_valid_day_for_month_spec (month day : Nat) :
    is_valid_day_for_month month day = true ↔
      1 ≤ month ∧ month ≤ 12 ∧ day ≤ monthLengthSpec month := by
  unfold is_valid_day_for_month monthLengthSpec
  split_ifs with h1 h2 h3 <;> simp <;> omega

/-- C1 (failing input): the spec requires `month(April)` after `day(31)`
to leave `month` unset (31 April is calendar-invalid), but the code
passes April's zero-based discriminant 3 to the validator, which reads 3
as March (31 days) and accepts, so `month` is set to `APR` with `day`
still 31. -/
theorem month_apr_after_day31_is_set :
    ((Schedule.new.setDay 31).setMonth Month.APR).month = some Month.APR ∧
    ((Schedule.new.setDay 31).setMonth Month.APR).day = some 31 ∧
    Month.toU8 Month.APR = 3 ∧
    is_valid_day_for_month Month.APR.toU8 31 = true := by
  decide

/-- C9: the day/month cross-check passes the month enum's zero-based
discriminant (`JAN = 0`) to `is_valid_day_for_month`, which expects
1-based month numbers and maps 0 to its catch-all `false`; consequently
for every day `d` in [1,31], `Schedule::new().day(d).month(JAN)` leaves
`month` unset while `day` keeps `d`. -/
theorem month_jan_always_rejected_after_day (d : Nat)
    (hd1 : 1 ≤ d) (hd2 : d ≤ 31) :
    Month.toU8 Month.JAN = 0 ∧
    is_valid_day_for_month Month.JAN.toU8 d = false ∧
    ((Schedule.new.setDay d).setMonth Month.JAN).month = none ∧
    ((Schedule.new.setDay d).setMonth Month.JAN).day = some d := by
  have hs : Schedule.new.setDay d = { Schedule.new with day := some d } := by
    simp [Schedule.setDay, Schedule.new, hd1, hd2]
  refine ⟨rfl, ?_, ?_, ?_⟩
  · simp [Month.toU8, is_valid_day_for_month]
  · rw [hs]
    simp [Schedule.setMonth, is_valid_day_for_month, Month.toU8, Schedule.new]
  · rw [hs]
    simp [Schedule.setMonth, is_valid_day_for_month, Month.toU8, Schedule.new]

/-- C9 witness: the general theorem applied at `d = 15`. -/
theorem month_jan_always_rejected_after_day_witness :
    Month.toU8 Month.JAN = 0 ∧
    is_valid_day_for_month Month.JAN.toU8 15 = false ∧
    ((Schedule.new.setDay 15).setMonth Month.JAN).month = none ∧
    ((Schedule.new.setDay 15).setMonth Month.JAN).day = some 15 :=
  month_jan_always_rejected_after_day 15 (by decide) (by decide)

/-- C10: `between` performs no range validation on its hour/minute
components — on a schedule with `range` unset it stores the two byte
pairs verbatim as `Some((Time{h1,m1}, Time{h2,m2}))`. -/
theorem between_stores_verbatim (s : Schedule) (h1 m1 h2 m2 : Nat)
    (h : s.range = none) :
    (s.setBetween (h1, m1) (h2, m2)).range =
      some ({ hour := h1, minute := m1 }, { hour := h2, minute := m2 }) := by
  simp [Schedule.setBetween, h]

/-- C10 witness: the general theorem applied to the fresh schedule and
the out-of-range pair `(99,99)`, stored verbatim. -/
theorem between_stores_verbatim_witness :
    (Schedule.new.setBetween (99, 99) (99, 99)).range =
      some ({ hour := 99, minute := 99 }, { hour := 99, minute := 99 }) :=
  between_stores_verbatim Schedule.new 99 99 99 99 rfl

/-- C6: scalar range validation on an empty schedule — `day(d)` stores
`d` exactly when `1 ≤ d ≤ 31` and leaves `day` unset otherwise;
`hour(h)` stores `h` exactly when `h ≤ 23`; `minute(m)` stores `m`
exactly when `m ≤ 59`; out-of-range inputs leave the field unset. -/
theorem scalar_range_validation :
    (∀ d, 1 ≤ d → d ≤ 31 → (Schedule.new.setDay d).day = some d) ∧
    (∀ d, ¬(1 ≤ d ∧ d ≤ 31) → (Schedule.new.setDay d).day = none) ∧
    (∀ h, h ≤ 23 → (Schedule.new.setHour h).hour = some h) ∧
    (∀ h, 24 ≤ h → (Schedule.new.setHour h).hour = none) ∧
    (∀ m, m ≤ 59 → (Schedule.new.setMinute m).minute = some m) ∧
    (∀ m, 60 ≤ m → (Schedule.new.setMinute m).minute = none) := by
  refine ⟨?_, ?_, ?_, ?_, ?_, ?_⟩
  · intro d h1 h2
    simp [Schedule.setDay, Schedule.new, h1, h2]
  · intro d h
    simp [Schedule.setDay, Schedule.new, h]
  · intro h hh
    have hlt : h < 24 := by omega
    simp [Schedule.setHour, Schedule.new, hlt]
  · intro h hh
    have hlt : ¬ h < 24 := by omega
    simp [Schedule.setHour, Schedule.new, hlt]
  · intro m hm
    have hlt : m < 60 := by omega
    simp [Schedule.setMinute, Schedule.new, hlt]
  · intro m hm
    have hlt : ¬ m < 60 := by omega
    simp [Schedule.setMinute, Schedule.new, hlt]

/-- C6 witness: the boundary inputs 31/32, 23/24, 59/60. -/
theorem scalar_range_validation_witness :
    (Schedule.new.setDay 31).day = some 31 ∧
    (Schedule.new.setDay 32).day = none ∧
    (Schedule.new.setHour 23).hour = some 23 ∧
    (Schedule.new.setHour 24).hour = none ∧
    (Schedule.new.setMinute 59).minute = some 59 ∧
    (Schedule.new.setMinute 60).minute = none :=
  ⟨scalar_range_validation.1 31 (by decide) (by decide),
   scalar_range_validation.2.1 32 (by decide),
   scalar_range_validation.2.2.1 23 (by decide),
   scalar_range_validation.2.2.2.1 24 (by decide),
   scalar_range_validation.2.2.2.2.1 59 (by decide),
   scalar_range_validation.2.2.2.2.2 60 (by decide)⟩

/-- C3: first-write-wins — for every schedule and each of the fields
year, day, month, hour, minute, recurring.frequency, recurring.except
and range, once the field holds `some v` any later call to the
corresponding setter leaves it equal to `some v`; in particular
`hour(8).hour(10)` yields `hour == Some(8)` and a second `between` call
preserves the first range. -/
theorem first_write_wins :
    (∀ (s : Schedule) (v y : Nat), s.year = some v → (s.setYear y).year = some v) ∧
    (∀ (s : Schedule) (v d : Nat), s.day = some v → (s.setDay d).day = some v) ∧
    (∀ (s : Schedule) (v m : Month), s.month = some v → (s.setMonth m).month = some v) ∧
    (∀ (s : Schedule) (v h : Nat), s.hour = some v → (s.setHour h).hour = some v) ∧
    (∀ (s : Schedule) (v m : Nat), s.minute = some v → (s.setMinute m).minute = some v) ∧
    (∀ (s : Schedule) (v f : FrequencyPattern), s.recurring.frequency = some v →
      (s.setEvery f).recurring.frequency = some v) ∧
    (∀ (s : Schedule) (v e : Except), s.recurring.except = some v →
      (s.setExcept e).recurring.except = some v) ∧
    (∀ (s : Schedule) (v : Time × Time) (a c : Nat × Nat), s.range = some v →
      (s.setBetween a c).range = some v) ∧
    ((Schedule.new.setHour 8).setHour 10).hour = some 8 ∧
    (∀ (a c a' c' : Nat × Nat),
      ((Schedule.new.setBetween a c).setBetween a' c').range =
        (Schedule.new.setBetween a c).range) := by
  refine ⟨?_, ?_, ?_, ?_, ?_, ?_, ?_, ?_, by decide, ?_⟩
  · intro s v y h
    simp [Schedule.setYear, h]
  · intro s v d h
    rcases hm : s.month with _ | m <;>
      simp [Schedule.setDay, hm, h]
  · intro s v m h
    rcases hd : s.day with _ | d <;>
      simp [Schedule.setMonth, hd, h]
  · intro s v h hv
    simp [Schedule.setHour, hv]
  · intro s v m h
    simp [Schedule.setMinute, h]
  · intro s v f h
    simp [Schedule.setEvery, h]
  · intro s v e h
    simp [Schedule.setExcept, h]
  · intro s v a c h
    simp [Schedule.setBetween, h]
  · intro a c a' c'
    simp [Schedule.setBetween, Schedule.new]

/-- C3 witness: one concrete duplicate write per field. -/
theorem first_write_wins_witness :
    ((Schedule.new.setYear 2025).setYear 2030).year = some 2025 ∧
    ((Schedule.new.setDay 5).setDay 9).day = some 5 ∧
    ((Schedule.new.setMonth Month.MAY).setMonth Month.JUN).month = some Month.MAY ∧
    ((Schedule.new.setHour 8).setHour 10).hour = some 8 ∧
    ((Schedule.new.setMinute 15).setMinute 45).minute = some 15 ∧
    ((Schedule.new.setEvery (.Frequency .Hourly)).setEvery
        (.Frequency .Daily)).recurring.frequency = some (.Frequency .Hourly) ∧
    ((Schedule.new.setExcept (.Day .WED)).setExcept
        (.Day .FRI)).recurring.except = some (.Day .WED) ∧
    ((Schedule.new.setBetween (9, 0) (10, 0)).setBetween (11, 0) (12, 0)).range =
      some ({ hour := 9, minute := 0 }, { hour := 10, minute := 0 }) :=
  ⟨first_write_wins.1 (Schedule.new.setYear 2025) 2025 2030 (by decide),
   first_write_wins.2.1 (Schedule.new.setDay 5) 5 9 (by decide),
   first_write_wins.2.2.1 (Schedule.new.setMonth Month.MAY) Month.MAY Month.JUN (by decide),
   first_write_wins.2.2.2.1 (Schedule.new.setHour 8) 8 10 (by decide),
   first_write_wins.2.2.2.2.1 (Schedule.new.setMinute 15) 15 45 (by decide),
   first_write_wins.2.2.2.2.2.1 (Schedule.new.setEvery (.Frequency .Hourly))
     (.Frequency .Hourly) (.Frequency .Daily) (by decide),
   first_write_wins.2.2.2.2.2.2.1 (Schedule.new.setExcept (.Day .WED))
     (.Day .WED) (.Day .FRI) (by decide),
   first_write_wins.2.2.2.2.2.2.2.1 (Schedule.new.setBetween (9, 0) (10, 0))
     ({ hour := 9, minute := 0 }, { hour := 10, minute := 0 }) (11, 0) (12, 0) (by decide)⟩

/-- C5: `until` on a schedule with `repeat` unset leaves it unset; on a
schedule whose `repeat` holds some `Until` record it replaces the
record's optional fields with the given arguments and preserves the
stored `total`; in particular `repeat(5)` then
`until(Some(3), Some(March), Some(10), Some(30))` yields
`total=5, day=3, month=March, hr=10, minute=30`. -/
theorem until_semantics :
    (∀ (s : Schedule) (d : Option Nat) (m : Option Month) (h mi : Option Nat),
      s.repeat' = none → (s.setUntil d m h mi).repeat' = none) ∧
    (∀ (s : Schedule) (u : Until) (d : Option Nat) (m : Option Month) (h mi : Option Nat),
      s.repeat' = some u →
        (s.setUntil d m h mi).repeat' =
          some { total := u.total, day := d, month := m, hr := h, minute := mi }) ∧
    ((Schedule.new.setRepeat 5).setUntil (some 3) (some Month.MAR) (some 10) (some 30)).repeat' =
      some { total := 5, day := some 3, month := some Month.MAR, hr := some 10, minute := some 30 } := by
  refine ⟨?_, ?_, by decide⟩
  · intro s d m h mi hr
    simp [Schedule.setUntil, hr]
  · intro s u d m h mi hr
    simp [Schedule.setUntil, hr]

/-- C5 witness: the no-op case on the fresh schedule, and the effective
case after `repeat 5`. -/
theorem until_semantics_witness :
    (Schedule.new.setUntil (some 5) (some Month.JAN) (some 8) (some 45)).repeat' = none ∧
    ((Schedule.new.setRepeat 5).setUntil (some 3) (some Month.MAR) (some 10) (some 30)).repeat' =
      some { total := 5, day := some 3, month := some Month.MAR, hr := some 10, minute := some 30 } :=
  ⟨until_semantics.1 Schedule.new (some 5) (some Month.JAN) (some 8) (some 45) rfl,
   until_semantics.2.1 (Schedule.new.setRepeat 5)
     { total := 5, day := none, month := none, hr := none, minute := none }
     (some 3) (some Month.MAR) (some 10) (some 30) (by decide)⟩

/-- C2 (counterexample): the builder state `(Set,NotSet,Set,NotSet)` —
hour already set — is reachable from `new()` via `day(5).hour(3)`, and
the `month` method is available on it (the `month` impl block is generic
over the `HourSet` marker), contradicting the claim that no reachable
state with hour set permits a `month(m)` transition. -/
theorem month_step_with_hour_set_reachable :
    BReach ⟨true, false, true, false⟩
      { month := none, day := some 5, hour := some 3, minute := none } ∧
    BStep (.month Month.SEPT) ⟨true, false, true, false⟩
      { month := none, day := some 5, hour := some 3, minute := none }
      ⟨true, true, true, false⟩
      { month := some Month.SEPT, day := some 5, hour := some 3, minute := none } ∧
    (⟨true, false, true, false⟩ : Flags).hourSet = true := by
  refine ⟨?_, ?_, rfl⟩
  · exact BReach.step (.hour 3)
      (BReach.step (.day 5) BReach.new (BStep.day 5 ScheduleBuilder.new))
      (BStep.hour false 3 (ScheduleBuilder.new.setDay 5))
  · exact BStep.month true Month.SEPT
      { month := none, day := some 5, hour := some 3, minute := none }

/-- C2 amended: the `month` transition is available exactly from builder
states with Day `Set`, Month `NotSet` and Minute `NotSet` — the Hour
marker may be either `Set` or `NotSet` (the target state keeps it), and
the transition exists for both values of the Hour marker. -/
theorem month_step_availability :
    (∀ (m : Month) (ts : Flags) (b : ScheduleBuilder) (ts' : Flags) (b' : ScheduleBuilder),
      BStep (.month m) ts b ts' b' →
        ts.daySet = true ∧ ts.monthSet = false ∧ ts.minuteSet = false ∧
        ts' = ⟨true, true, ts.hourSet, false⟩ ∧ b' = b.setMonth m) ∧
    (∀ (hs : Bool) (m : Month) (b : ScheduleBuilder),
      BStep (.month m) ⟨true, false, hs, false⟩ b ⟨true, true, hs, false⟩ (b.setMonth m)) := by
  constructor
  · intro m ts b ts' b' h
    cases h
    exact ⟨rfl, rfl, rfl, rfl, rfl⟩
  · intro hs m b
    exact BStep.month hs m b

/-- C2 amended witness: the characterisation applied to the concrete
month step taken from the hour-set state. -/
theorem month_step_availability_witness :
    (⟨true, false, true, false⟩ : Flags).daySet = true ∧
    (⟨true, false, true, false⟩ : Flags).monthSet = false ∧
    (⟨true, false, true, false⟩ : Flags).minuteSet = false ∧
    (⟨true, true, true, false⟩ : Flags) =
      ⟨true, true, (⟨true, false, true, false⟩ : Flags).hourSet, false⟩ ∧
    ScheduleBuilder.setMonth
        { month := none, day := some 5, hour := some 3, minute := none } Month.SEPT =
      ScheduleBuilder.setMonth
        { month := none, day := some 5, hour := some 3, minute := none } Month.SEPT :=
  month_step_availability.1 Month.SEPT ⟨true, false, true, false⟩
    { month := none, day := some 5, hour := some 3, minute := none }
    ⟨true, true, true, false⟩
    (ScheduleBuilder.setMonth
      { month := none, day := some 5, hour := some 3, minute := none } Month.SEPT)
    (BStep.month true Month.SEPT
      { month := none, day := some 5, hour := some 3, minute := none })

/-- C4: each `build()` unwraps the accumulated raw values and feeds them
through the Schedule entity's own setters on a fresh schedule, so
Schedule's validation still applies — a builder holding day=50 yields a
schedule with `day` unset; `new().day(20).month(SEPT).hour(22).minute(0)
.build()` produces day=20, month=SEPT, hour=22, minute=0; and
`new().day(5).build()` produces a schedule with only day=5 set. -/
theorem build_refines_schedule_setters :
    (∀ (b : ScheduleBuilder) (d : Nat), b.day = some d →
      b.buildDayOnly = some (Schedule.new.setDay d)) ∧
    (∀ (b : ScheduleBuilder) (d : Nat) (m : Month), b.day = some d → b.month = some m →
      b.buildDayMonth = some ((Schedule.new.setDay d).setMonth m)) ∧
    (∀ (b : ScheduleBuilder) (d h mi : Nat), b.day = some d → b.hour = some h →
      b.minute = some mi →
      b.buildFull = some (match b.month with
        | some y => (((Schedule.new.setDay d).setHour h).setMinute mi).setMonth y
        | none => ((Schedule.new.setDay d).setHour h).setMinute mi)) ∧
    ScheduleBuilder.buildFull
        ((((ScheduleBuilder.new.setDay 20).setMonth Month.SEPT).setHour 22).setMinute 0) =
      some { Schedule.new with
              day := some 20, month := some Month.SEPT, hour := some 22, minute := some 0 } ∧
    ScheduleBuilder.buildDayOnly (ScheduleBuilder.new.setDay 5) =
      some { Schedule.new with day := some 5 } ∧
    ScheduleBuilder.buildDayOnly (ScheduleBuilder.new.setDay 50) = some Schedule.new := by
  refine ⟨?_, ?_, ?_, by decide, by decide, by decide⟩
  · intro b d hd
    simp [ScheduleBuilder.buildDayOnly, hd]
  · intro b d m hd hm
    simp [ScheduleBuilder.buildDayMonth, hd, hm]
  · intro b d h mi hd hh hmi
    simp [ScheduleBuilder.buildFull, hd, hh, hmi]

/-- C4 witness: the day-only refinement equation at a concrete builder. -/
theorem build_refines_schedule_setters_witness :
    ScheduleBuilder.buildDayOnly { month := none, day := some 5, hour := none, minute := none } =
      some (Schedule.new.setDay 5) :=
  build_refines_schedule_setters.1
    { month := none, day := some 5, hour := none, minute := none } 5 rfl

/-- C8: no fatal error path — the `unwrap` inside `until` (guarded by
the repeat-is-none check) never fails on any schedule, and the `unwrap`s
inside the three `build` impls never fail on any builder reachable in a
state offering that `build`; every operation is a total value
transformation weakening malformed input to an absent field. -/
theorem no_panic_totality :
    (∀ (s : Schedule) (d : Option Nat) (m : Option Month) (h mi : Option Nat),
      s.setUntilChecked d m h mi = some (s.setUntil d m h mi)) ∧
    (∀ b, BReach ⟨true, false, false, false⟩ b → b.buildDayOnly.isSome) ∧
    (∀ b, BReach ⟨true, true, false, false⟩ b → b.buildDayMonth.isSome) ∧
    (∀ (ms : Bool) b, BReach ⟨true, ms, true, true⟩ b → b.buildFull.isSome) := by
  refine ⟨?_, ?_, ?_, ?_⟩
  · intro s d m h mi
    rcases hr : s.repeat' with _ | u <;>
      simp [Schedule.setUntilChecked, Schedule.setUntil, hr]
  · intro b h
    have hd := (breach_stored_values h).1 rfl
    rcases hb : b.day with _ | d
    · simp [hb] at hd
    · simp [ScheduleBuilder.buildDayOnly, hb]
  · intro b h
    obtain ⟨hd, hm, _, _⟩ := breach_stored_values h
    rcases hb : b.day with _ | d
    · simp [hb] at hd
    rcases hbm : b.month with _ | m
    · simp [hbm] at hm
    simp [ScheduleBuilder.buildDayMonth, hb, hbm]
  · intro ms b h
    obtain ⟨hd, _, hh, hmi⟩ := breach_stored_values h
    rcases hb : b.day with _ | d
    · simp [hb] at hd
    rcases hbh : b.hour with _ | hv
    · simp [hbh] at hh
    rcases hbm : b.minute with _ | mv
    · simp [hbm] at hmi
    simp [ScheduleBuilder.buildFull, hb, hbh, hbm]

/-- C8 witness: the checked `until` on a schedule without `repeat`, and
the three `build`s on concrete reachable builders. -/
theorem no_panic_totality_witness :
    Schedule.new.setUntilChecked (some 3) (some Month.MAR) (some 10) (some 30) =
      some (Schedule.new.setUntil (some 3) (some Month.MAR) (some 10) (some 30)) ∧
    (ScheduleBuilder.new.setDay 5).buildDayOnly.isSome = true ∧
    ((ScheduleBuilder.new.setDay 5).setMonth Month.SEPT).buildDayMonth.isSome = true ∧
    (((ScheduleBuilder.new.setDay 5).setHour 3).setMinute 4).buildFull.isSome = true :=
  ⟨no_panic_totality.1 Schedule.new (some 3) (some Month.MAR) (some 10) (some 30),
   no_panic_totality.2.1 _
     (BReach.step (.day 5) BReach.new (BStep.day 5 ScheduleBuilder.new)),
   no_panic_totality.2.2.1 _
     (BReach.step (.month Month.SEPT)
       (BReach.step (.day 5) BReach.new (BStep.day 5 ScheduleBuilder.new))
       (BStep.month false Month.SEPT (ScheduleBuilder.new.setDay 5))),
   no_panic_totality.2.2.2 false _
     (BReach.step (.minute 4)
       (BReach.step (.hour 3)
         (BReach.step (.day 5) BReach.new (BStep.day 5 ScheduleBuilder.new))
         (BStep.hour false 3 (ScheduleBuilder.new.setDay 5)))
       (BStep.minute false 4 ((ScheduleBuilder.new.setDay 5).setHour 3)))⟩

end Brahma
